import Mathlib

/-!
Verification of the two server-side API proxies of the homepage repository
(`src/pages/api/homelab.ts` and `src/pages/api/spotify.ts`, together with
the second homelab variant shipped in the repository).

The TypeScript code is shallowly embedded. JavaScript runtime values are
the inductive `JVal`; JS numbers are modelled as rationals, that is, as
exact finite numbers (NaN and the infinities only arise in the code through
failed parses, which the embedding represents as `Option.none`). Network
and filesystem effects are oracles passed in as explicit arguments, and
fallible code returns `Except`.

Rational arithmetic from the standard library (`Rat.add`, `Rat.mul`, ...)
is irreducible and therefore opaque to kernel evaluation, so the embedding
uses small executable clones (`qAdd`, `qMul`, `qDiv`, ...) built on
`mkRat`; each clone is proved equal to the standard operation, so the
definitions below can be read with ordinary arithmetic in mind while
concrete runs still evaluate by `decide`.
-/

set_option maxRecDepth 8000

/-- Equality of `Except` values is decidable componentwise. -/
instance {ε α : Type _} [DecidableEq ε] [DecidableEq α] : DecidableEq (Except ε α) := fun x y =>
  match x, y with
  | .ok a, .ok b =>
    if h : a = b then isTrue (by rw [h]) else isFalse (fun hh => by cases hh; exact h rfl)
  | .error a, .error b =>
    if h : a = b then isTrue (by rw [h]) else isFalse (fun hh => by cases hh; exact h rfl)
  | .ok _, .error _ => isFalse (fun hh => by cases hh)
  | .error _, .ok _ => isFalse (fun hh => by cases hh)

/-- JavaScript runtime values, as far as the two proxies inspect them. -/
inductive JVal where
  | null : JVal
  | undefined : JVal
  | bool : Bool → JVal
  | num : ℚ → JVal
  | str : String → JVal
  | arr : List JVal → JVal
  | obj : List (String × JVal) → JVal

/-- JavaScript truthiness: `null`, `undefined`, `false`, `0` and the empty
string are falsy; every other value (including empty arrays and empty
objects) is truthy. -/
def jsTruthy : JVal → Bool
  | .null => false
  | .undefined => false
  | .bool b => b
  | .num q => q != 0
  | .str s => s != ""
  | .arr _ => true
  | .obj _ => true

/-- The JavaScript `a || b` operator on values. -/
def jsOr (a b : JVal) : JVal := if jsTruthy a then a else b

/-- Decimal rendering of a JS number. Only integral values ever reach a
string in the embedded code (every number is passed through rounding
first), so only the integral case must be exact. -/
def ratToJsString (q : ℚ) : String :=
  if q.den = 1 then toString q.num else toString q.num ++ "/" ++ toString q.den

mutual

/-- `String(v)` coercion of JavaScript. -/
def jsToString : JVal → String
  | .null => "null"
  | .undefined => "undefined"
  | .bool b => if b then "true" else "false"
  | .num q => ratToJsString q
  | .str s => s
  | .arr xs => String.intercalate "," (jsToStringElems xs)
  | .obj _ => "[object Object]"

/-- Elementwise stringification used by `Array.prototype.join`: `null` and
`undefined` elements render as the empty string. -/
def jsToStringElems : List JVal → List String
  | [] => []
  | .null :: rest => "" :: jsToStringElems rest
  | .undefined :: rest => "" :: jsToStringElems rest
  | v :: rest => jsToString v :: jsToStringElems rest

end

/-- `toLowerCase` restricted to its ASCII action, which is all the status
vocabulary of the proxies exercises. -/
def jsToLower (s : String) : String := ⟨s.data.map Char.toLower⟩

/-- Does the character list `pre` start the second list? -/
def listStarts : List Char → List Char → Bool
  | [], _ => true
  | _ :: _, [] => false
  | a :: as, b :: bs => a = b && listStarts as bs

/-- Whether `sub` occurs as a contiguous run inside the second list. -/
def hasSubChars (sub : List Char) : List Char → Bool
  | [] => sub.isEmpty
  | c :: rest => listStarts sub (c :: rest) || hasSubChars sub rest

/-- `s.includes(sub)` of JavaScript strings. -/
def strIncludes (s sub : String) : Bool := hasSubChars sub.data s.data

/-- The whitespace class trimmed by `String.prototype.trim`, restricted to
the ASCII whitespace characters. -/
def isJsWS (c : Char) : Bool :=
  c = ' ' || c = '\t' || c = '\n' || c = '\r' || c = '\x0b' || c = '\x0c'

/-- Drop trailing whitespace from a character list. -/
def trimTail (l : List Char) : List Char := (l.reverse.dropWhile isJsWS).reverse

/-- `s.trim()` of JavaScript strings: drop leading and trailing
whitespace. -/
def jsTrim (s : String) : String := ⟨trimTail (s.data.dropWhile isJsWS)⟩

/-- Property lookup `v[key]` for the places where the code has already
ruled out `null`/`undefined` or protected the access with optional
chaining: objects yield the stored value or `undefined`; arrays support
canonical numeric keys and `length`; every other base yields `undefined`. -/
def jsField (v : JVal) (key : String) : JVal :=
  match v with
  | .obj fields =>
      match fields.find? (fun p => p.1 == key) with
      | some p => p.2
      | none => .undefined
  | .arr xs =>
      if key == "length" then .num xs.length
      else
        match key.toNat? with
        | some i => xs.getD i .undefined
        | none => .undefined
  | _ => .undefined

/-- Plain (non-optional-chained) property access, which throws a
`TypeError` when the base is `null` or `undefined`. -/
def jsGetThrow (v : JVal) (key : String) : Except String JVal :=
  match v with
  | .null => .error "TypeError: cannot read properties of null"
  | .undefined => .error "TypeError: cannot read properties of undefined"
  | v => .ok (jsField v key)

/-- Array index access `xs[i]` on an already-verified array. -/
def jsIndex (v : JVal) (i : ℕ) : JVal :=
  match v with
  | .arr xs => xs.getD i .undefined
  | _ => .undefined

/-! ### Executable rational arithmetic

`mkRat` evaluates inside the kernel while the standard rational operations
do not, so the embedding routes all arithmetic through the following
definitions, each proved equal to the standard operation. -/

/-- Executable addition on ℚ. -/
def qAdd (a b : ℚ) : ℚ := mkRat (a.num * b.den + b.num * a.den) (a.den * b.den)

/-- Executable negation on ℚ. -/
def qNeg (a : ℚ) : ℚ := mkRat (-a.num) a.den

/-- Executable subtraction on ℚ. -/
def qSub (a b : ℚ) : ℚ := qAdd a (qNeg b)

/-- Executable multiplication on ℚ. -/
def qMul (a b : ℚ) : ℚ := mkRat (a.num * b.num) (a.den * b.den)

/-- Executable division on ℚ (zero when the divisor is zero; the embedded
code only ever divides by positive constants). -/
def qDiv (a b : ℚ) : ℚ := mkRat (a.num * b.den * Int.sign b.num) (a.den * b.num.natAbs)

/-- Integer embedding into ℚ. -/
def intToQ (z : ℤ) : ℚ := mkRat z 1

theorem qAdd_eq (a b : ℚ) : qAdd a b = a + b := by
  have ha : (a.den : ℚ) ≠ 0 := Nat.cast_ne_zero.mpr a.den_nz
  have hb : (b.den : ℚ) ≠ 0 := Nat.cast_ne_zero.mpr b.den_nz
  unfold qAdd
  rw [Rat.mkRat_eq_divInt, Rat.divInt_eq_div]
  conv_rhs => rw [← Rat.num_div_den a, ← Rat.num_div_den b]
  push_cast
  field_simp

theorem qNeg_eq (a : ℚ) : qNeg a = -a := by
  have ha : (a.den : ℚ) ≠ 0 := Nat.cast_ne_zero.mpr a.den_nz
  unfold qNeg
  rw [Rat.mkRat_eq_divInt, Rat.divInt_eq_div]
  conv_rhs => rw [← Rat.num_div_den a]
  push_cast
  field_simp

theorem qSub_eq (a b : ℚ) : qSub a b = a - b := by
  rw [qSub, qAdd_eq, qNeg_eq, sub_eq_add_neg]

theorem qMul_eq (a b : ℚ) : qMul a b = a * b := by
  have ha : (a.den : ℚ) ≠ 0 := Nat.cast_ne_zero.mpr a.den_nz
  have hb : (b.den : ℚ) ≠ 0 := Nat.cast_ne_zero.mpr b.den_nz
  unfold qMul
  rw [Rat.mkRat_eq_divInt, Rat.divInt_eq_div]
  conv_rhs => rw [← Rat.num_div_den a, ← Rat.num_div_den b]
  push_cast
  field_simp

theorem qDiv_eq (a b : ℚ) : qDiv a b = a / b := by
  have ha : (a.den : ℚ) ≠ 0 := Nat.cast_ne_zero.mpr a.den_nz
  have hb : (b.den : ℚ) ≠ 0 := Nat.cast_ne_zero.mpr b.den_nz
  unfold qDiv
  rcases lt_trichotomy b.num 0 with h | h | h
  · have hs : Int.sign b.num = -1 := Int.sign_eq_neg_one_of_neg h
    have hbn : (b.num : ℚ) < 0 := by exact_mod_cast h
    rw [Rat.mkRat_eq_divInt, Rat.divInt_eq_div, hs]
    conv_rhs => rw [← Rat.num_div_den a, ← Rat.num_div_den b]
    push_cast
    rw [abs_of_neg hbn]
    field_simp
  · have hb0 : b = 0 := by rwa [← Rat.num_eq_zero]
    simp [h, hb0, Rat.mkRat_eq_divInt]
  · have hs : Int.sign b.num = 1 := Int.sign_eq_one_of_pos h
    have hbn : (0 : ℚ) < (b.num : ℚ) := by exact_mod_cast h
    rw [Rat.mkRat_eq_divInt, Rat.divInt_eq_div, hs]
    conv_rhs => rw [← Rat.num_div_den a, ← Rat.num_div_den b]
    push_cast
    rw [abs_of_pos hbn]
    field_simp

theorem intToQ_eq (z : ℤ) : intToQ z = (z : ℚ) := by
  rw [intToQ, Rat.mkRat_eq_divInt, Rat.divInt_eq_div]
  norm_num

/-- `Math.round`: half-up rounding to an integer, computed on the reduced
numerator and denominator so the kernel can evaluate it. -/
def jsRound (q : ℚ) : ℤ := Int.fdiv (2 * q.num + q.den) (2 * q.den)

theorem jsRound_eq_floor (q : ℚ) : jsRound q = ⌊q + 1/2⌋ := by
  have h1 : q + 1/2 = ((2 * q.num + (q.den : ℤ) : ℤ) : ℚ) / ((2 * q.den : ℕ) : ℚ) := by
    have hd0 : (q.den : ℚ) ≠ 0 := Nat.cast_ne_zero.mpr q.den_nz
    conv_lhs => rw [← Rat.num_div_den q]
    push_cast
    field_simp
    ring
  rw [h1, Rat.floor_intCast_div_natCast, jsRound, Int.fdiv_eq_ediv]
  · norm_num
  · positivity

/-- `Math.floor` on a JS number, computed on numerator and denominator. -/
def jsFloor (q : ℚ) : ℤ := Int.fdiv q.num q.den

theorem jsFloor_eq (q : ℚ) : jsFloor q = ⌊q⌋ := by
  conv_rhs => rw [← Rat.num_div_den q]
  rw [Rat.floor_intCast_div_natCast, jsFloor, Int.fdiv_eq_ediv]
  exact Int.ofNat_nonneg q.den

/-- Truncation toward zero, as JS `%` uses. -/
def truncQ (q : ℚ) : ℤ := Int.tdiv q.num q.den

/-- The JS remainder operator `a % n`: `a - n * trunc(a / n)`. -/
def jsMod (a n : ℚ) : ℚ := qSub a (qMul n (intToQ (truncQ (qDiv a n))))

/-- `Math.max(0, x)` for a (finite) JS number. -/
def jsMax0 (x : ℚ) : ℚ := if x < 0 then 0 else x

/-! ### Homelab proxy embedding (`src/pages/api/homelab.ts`)

The second homelab variant in the repository contains textually identical
copies of `normalizeStatus` and `toNumber`; its `formatBytes` differs in
the unparsable case and is embedded separately as `formatBytesVariant`. -/

/-- The fixed four-value status enum of the homelab proxy. -/
inductive Status where
  | running | degraded | exited | pending
deriving DecidableEq, Repr

/-- The string the status classifier inspects:
`String(value || "").toLowerCase()`. -/
def statusStringOf (value : JVal) : String :=
  jsToLower (jsToString (jsOr value (.str "")))

/-- `normalizeStatus`: substring checks in source order running, degraded,
pending, exited, defaulting to running. -/
def normalizeStatus (value : JVal) : Status :=
  let status := statusStringOf value
  if strIncludes status "running" || strIncludes status "up" ||
      strIncludes status "healthy" || strIncludes status "active" then
    .running
  else if strIncludes status "degraded" || strIncludes status "warning" ||
      strIncludes status "unhealthy" || strIncludes status "error" then
    .degraded
  else if strIncludes status "pending" || strIncludes status "starting" ||
      strIncludes status "init" || strIncludes status "create" then
    .pending
  else if strIncludes status "exit" || strIncludes status "stopped" ||
      strIncludes status "dead" || strIncludes status "inactive" then
    .exited
  else
    .running

/-- The character filter of `value.replace(/[^0-9.-]/g, "")`. -/
def stripNonNumeric (s : String) : String :=
  ⟨s.data.filter fun c => c.isDigit || c = '.' || c = '-'⟩

/-- Digit run to natural number. -/
def digitsToNat (l : List Char) : ℕ :=
  l.foldl (fun acc c => acc * 10 + (c.toNat - '0'.toNat)) 0

/-- `Number.parseFloat` on a string already stripped to `[0-9.-]`: an
optional leading sign, a longest digit run, then optionally a point and a
second digit run; NaN (`none`) when both digit runs are empty. The value is
`intPart + fracPart / 10 ^ |fracPart|`, assembled with `mkRat` over a
common denominator. Exponent forms cannot occur because `e` never survives
the strip. -/
def parseFloatQ (s : String) : Option ℚ :=
  let l := s.data
  let neg := match l with | '-' :: _ => true | _ => false
  let l1 := match l with | '-' :: rest => rest | '+' :: rest => rest | _ => l
  let intPart := l1.takeWhile Char.isDigit
  let l2 := l1.dropWhile Char.isDigit
  let fracPart := match l2 with | '.' :: rest => rest.takeWhile Char.isDigit | _ => []
  if intPart.isEmpty && fracPart.isEmpty then none
  else
    let mag : ℤ := digitsToNat intPart * 10 ^ fracPart.length + digitsToNat fracPart
    some (mkRat (if neg then -mag else mag) (10 ^ fracPart.length))

/-- `toNumber`: finite numbers pass through; strings are stripped to
`[0-9.-]` and parsed; everything else is `null`. -/
def toNumber : JVal → Option ℚ
  | .num q => some q
  | .str s => parseFloatQ (stripNonNumeric s)
  | _ => none

/-- `value.toFixed(1)` for a nonnegative finite number: one-decimal
half-up rounding, rendered as integer part, point, single digit. -/
def toFixed1 (x : ℚ) : String :=
  let n := jsRound (qMul x 10)
  toString (Int.fdiv n 10) ++ "." ++ toString (Int.fmod n 10)

/-- `formatPercent` from the homelab proxy. -/
def formatPercent (value : JVal) (fallback : String := "0.0%") : String :=
  match toNumber value with
  | none => fallback
  | some parsed => toFixed1 (jsMax0 parsed) ++ "%"

/-- `formatBytes` from `src/pages/api/homelab.ts`. An unparsable string is
returned verbatim; other unparsable values give the fallback. -/
def formatBytes (value : JVal) (fallback : String := "0MiB") : String :=
  match toNumber value with
  | none => match value with | .str s => s | _ => fallback
  | some parsed =>
    if parsed ≤ 0 then "0MiB"
    else
      let mib := if parsed > 10000 then qDiv parsed (qMul 1024 1024) else parsed
      toString (jsRound mib) ++ "MiB"

/-- `formatBytes` from the second homelab variant in the repository: this
copy returns the fallback for every unparsable value. -/
def formatBytesVariant (value : JVal) (fallback : String := "0MiB") : String :=
  match toNumber value with
  | none => fallback
  | some parsed =>
    if parsed ≤ 0 then "0MiB"
    else
      let mib := if parsed > 10000 then qDiv parsed (qMul 1024 1024) else parsed
      toString (jsRound mib) ++ "MiB"

/-- The numeric tail of `formatUptime`, applied when the value is not a
non-blank string. -/
def formatUptimeNum (secondsOpt : Option ℚ) : String :=
  match secondsOpt with
  | none => "n/a"
  | some seconds =>
    if seconds < 0 then "n/a"
    else
      let days := jsFloor (qDiv seconds 86400)
      let hours := jsFloor (qDiv (jsMod seconds 86400) 3600)
      if days > 0 then toString days ++ "d " ++ toString hours ++ "h"
      else
        let minutes := jsFloor (qDiv (jsMod seconds 3600) 60)
        toString hours ++ "h " ++ toString minutes ++ "m"

/-- `formatUptime` from the homelab proxy. -/
def formatUptime (value : JVal) : String :=
  match value with
  | .str s => if jsTrim s ≠ "" then jsTrim s else formatUptimeNum (toNumber value)
  | v => formatUptimeNum (toNumber v)

/-- One step of the dotted-path walk of `getPath`: descend into `key` when
the current value is a truthy object carrying it, else `undefined`. -/
def getPathStep (current : JVal) (key : String) : JVal :=
  match current with
  | .obj fields =>
      match fields.find? (fun p => p.1 == key) with
      | some p => p.2
      | none => .undefined
  | _ => .undefined

/-- Character-level splitter realizing `path.split(".")`. -/
def splitDotGo : List Char → List Char → List String
  | [], acc => [⟨acc.reverse⟩]
  | c :: rest, acc =>
    if c = '.' then ⟨acc.reverse⟩ :: splitDotGo rest [] else splitDotGo rest (c :: acc)

/-- `path.split(".")`. -/
def splitDot (path : String) : List String := splitDotGo path.data []

/-- `getPath`: split the dotted path and walk it with `reduce`. -/
def getPath (obj : JVal) (path : String) : JVal :=
  if ¬ jsTruthy obj || path = "" then .undefined
  else (splitDot path).foldl getPathStep obj

/-- `pickNumber`: the first dotted path whose value parses as a number. -/
def pickNumber (obj : JVal) (paths : List String) : Option ℚ :=
  match paths with
  | [] => none
  | p :: rest =>
    match toNumber (getPath obj p) with
    | some v => some v
    | none => pickNumber obj rest

/-- `pickString`: the first dotted path holding a non-blank string, trimmed;
else the fallback. -/
def pickString (obj : JVal) (paths : List String) (fallback : String := "") : String :=
  match paths with
  | [] => fallback
  | p :: rest =>
    match getPath obj p with
    | .str s => if jsTrim s ≠ "" then jsTrim s else pickString obj rest fallback
    | _ => pickString obj rest fallback

/-- Row kind of the runtime table. -/
inductive RowType where
  | containers | pods
deriving DecidableEq, Repr

/-- A normalized runtime row. Container rows carry an image, pod rows a
container count. -/
structure RuntimeRow where
  rowType : RowType
  name : String
  image : Option String
  containers : Option ℕ
  status : Status
  cpu : String
  memory : String
  uptime : String
deriving DecidableEq, Repr

/-- Headline metrics of a snapshot. -/
structure Metrics where
  cpu : ℤ
  memory : ℤ
  disk : ℤ
  thermal : ℤ
deriving DecidableEq, Repr

/-- Summary counts of a snapshot. -/
structure Summary where
  hosts : ℕ
  containers : ℕ
  pods : ℕ
  alerts : ℕ
deriving DecidableEq, Repr

/-- Origin marker of a snapshot. -/
inductive SnapshotSource where
  | beszel | mock
deriving DecidableEq, Repr

/-- A homelab snapshot. -/
structure Snapshot where
  source : SnapshotSource
  syncedAt : String
  summary : Summary
  metrics : Metrics
  rows : List RuntimeRow
deriving DecidableEq, Repr

/-- Lift `number | null` back into a JS value, as happens when a
`pickNumber` result is handed to a formatter. -/
def numOrNull : Option ℚ → JVal
  | some q => .num q
  | none => .null

/-- The hardcoded mock rows of the homelab proxy. -/
def mockRows : List RuntimeRow :=
  [ ⟨.containers, "traefik-edge", some "traefik:v3", none, .running, "3.8%", "142MiB", "12d 04h"⟩,
    ⟨.containers, "gitea-app", some "gitea/gitea:1.23", none, .running, "8.1%", "512MiB", "8d 21h"⟩,
    ⟨.containers, "vaultwarden", some "vaultwarden/server:1.33", none, .degraded, "21.4%", "338MiB", "5d 13h"⟩,
    ⟨.containers, "grafana", some "grafana/grafana:11.1", none, .running, "5.2%", "406MiB", "14d 02h"⟩,
    ⟨.containers, "legacy-registry", some "registry:2", none, .exited, "0.0%", "0MiB", "stopped"⟩,
    ⟨.pods, "edge-stack", none, some 3, .running, "9.9%", "812MiB", "12d 04h"⟩,
    ⟨.pods, "forge-stack", none, some 2, .running, "12.0%", "724MiB", "8d 21h"⟩,
    ⟨.pods, "auth-stack", none, some 2, .degraded, "24.8%", "701MiB", "5d 13h"⟩,
    ⟨.pods, "backup-stack", none, some 2, .pending, "1.1%", "92MiB", "starting"⟩ ]

/-- `normalizeContainerRow`. -/
def normalizeContainerRow (raw : JVal) : RuntimeRow :=
  let status := normalizeStatus (.str (pickString raw ["status", "state", "container_status", "info.status"] "running"))
  let name := pickString raw ["name", "container", "container_name"] "unknown-container"
  { rowType := .containers
    name := name
    image := some (pickString raw ["image", "image_name", "container_image"] "n/a")
    containers := none
    status := status
    cpu := formatPercent (numOrNull (pickNumber raw ["cpu", "cpu_percent", "stats.cpu", "info.cpu"]))
    memory := formatBytes (numOrNull (pickNumber raw ["memory", "mem", "memory_usage", "stats.memory", "info.memory"])) "n/a"
    uptime := formatUptime (jsOr (.str (pickString raw ["uptime", "running_for", "started"]))
      (numOrNull (pickNumber raw ["uptime_seconds"]))) }

/-- `normalizePodRow`. -/
def normalizePodRow (raw : JVal) : RuntimeRow :=
  let status := normalizeStatus (.str (pickString raw ["status", "state", "pod_status", "info.status"] "running"))
  let name := pickString raw ["name", "pod", "pod_name"] "unknown-pod"
  { rowType := .pods
    name := name
    image := none
    containers := some (jsRound ((pickNumber raw ["containers", "container_count", "stats.containers"]).getD 0)).toNat
    status := status
    cpu := formatPercent (numOrNull (pickNumber raw ["cpu", "cpu_percent", "stats.cpu", "info.cpu"]))
    memory := formatBytes (numOrNull (pickNumber raw ["memory", "mem", "memory_usage", "stats.memory", "info.memory"])) "n/a"
    uptime := formatUptime (jsOr (.str (pickString raw ["uptime", "running_for", "started"]))
      (numOrNull (pickNumber raw ["uptime_seconds"]))) }

/-- The embedded per-system record list used when a direct collection came
back empty: `getPath(system, key) || getPath(system, "info." + key)`,
kept when it is an array. -/
def embeddedRecords (systems : List JVal) (key infoKey : String) : List JVal :=
  (systems.map fun system =>
    match jsOr (getPath system key) (getPath system infoKey) with
    | .arr xs => xs
    | _ => []).flatten

/-- `buildRuntimeRows`: direct collection records, with embedded records
substituted per kind when the direct list is empty. -/
def buildRuntimeRows (systems containerRecords podRecords : List JVal) : List RuntimeRow :=
  let containers := containerRecords.map normalizeContainerRow
  let pods := podRecords.map normalizePodRow
  if containers.length = 0 ∨ pods.length = 0 then
    let containers2 := if containers.length = 0 then
      containers ++ (embeddedRecords systems "containers" "info.containers").map normalizeContainerRow
    else containers
    let pods2 := if pods.length = 0 then
      pods ++ (embeddedRecords systems "pods" "info.pods").map normalizePodRow
    else pods
    containers2 ++ pods2
  else containers ++ pods

/-- The find loop of `buildMetrics`: the first system classified as
running. The direct `system.status` access throws on `null`/`undefined`
elements. -/
def findRunningSystem : List JVal → Except String (Option JVal)
  | [] => .ok none
  | s :: rest =>
    match jsGetThrow s "status" with
    | .error e => .error e
    | .ok st =>
      if normalizeStatus st = .running then .ok (some s) else findRunningSystem rest

/-- `buildMetrics`: headline numbers from the primary system (first
running, else first), with per-field defaults. -/
def buildMetrics (systems : List JVal) : Except String Metrics :=
  match findRunningSystem systems with
  | .error e => .error e
  | .ok found =>
    let primary := jsOr (match found with | some s => s | none => .undefined)
      (match systems.head? with | some s => s | none => .undefined)
    if ¬ jsTruthy primary then
      .ok ⟨34, 62, 48, 57⟩
    else
      .ok
        { cpu := jsRound ((pickNumber primary ["info.cpu", "cpu", "stats.cpu"]).getD 34)
          memory := jsRound ((pickNumber primary ["info.mp", "info.memory", "memory", "stats.memory"]).getD 62)
          disk := jsRound ((pickNumber primary ["info.dp", "info.disk", "disk", "stats.disk"]).getD 48)
          thermal := jsRound ((pickNumber primary ["info.temp", "temperature", "stats.temp"]).getD 57) }

/-- `buildSummary`: counts over the normalized rows plus the raw host
count. -/
def buildSummary (systems : List JVal) (rows : List RuntimeRow) : Summary :=
  { hosts := systems.length
    containers := (rows.filter fun r => r.rowType == .containers).length
    pods := (rows.filter fun r => r.rowType == .pods).length
    alerts := (rows.filter fun r => r.status == .degraded || r.status == .pending).length }

/-- `buildMockSnapshot` (the timestamp is supplied by the caller in this
embedding). -/
def buildMockSnapshot (now : String) : Snapshot :=
  { source := .mock
    syncedAt := now
    summary := buildSummary [] mockRows
    metrics := ⟨34, 62, 48, 57⟩
    rows := mockRows }

/-- The observable outcome of one `fetchCollection` call: a thrown error,
`null` (HTTP 404 or a payload without an `items` array), or the items. -/
abbrev CollectionResult := Except String (Option (List JVal))

/-- Oracle inputs of one homelab request: the result of the `systems`
collection fetch, the per-candidate results for the container and pod
collection names, and the request timestamp. -/
structure HomelabEnv where
  systems : CollectionResult
  containerCandidates : List CollectionResult
  podCandidates : List CollectionResult
  now : String

/-- `fetchFirstCollection`: first candidate that yields items wins;
errors and missing collections move on to the next candidate; an exhausted
list yields the empty list. -/
def fetchFirstCollection : List CollectionResult → List JVal
  | [] => []
  | .ok (some items) :: _ => items
  | _ :: rest => fetchFirstCollection rest

/-- The runtime rows a request would build from live data, before the
mock-row substitution. -/
def beszelRowsOf (env : HomelabEnv) : List RuntimeRow :=
  match env.systems with
  | .ok (some items) =>
    buildRuntimeRows items (fetchFirstCollection env.containerCandidates)
      (fetchFirstCollection env.podCandidates)
  | _ => []

/-- `buildBeszelSnapshot`: systems must be present and non-empty, rows and
metrics are built from live data, and the mock rows are substituted when
zero rows were produced. -/
def buildBeszelSnapshot (env : HomelabEnv) : Except String Snapshot :=
  match env.systems with
  | .error e => .error e
  | .ok none => .error "No systems from Beszel"
  | .ok (some items) =>
    if items.length = 0 then .error "No systems from Beszel"
    else
      let containers := fetchFirstCollection env.containerCandidates
      let pods := fetchFirstCollection env.podCandidates
      let rows := buildRuntimeRows items containers pods
      match buildMetrics items with
      | .error e => .error e
      | .ok metrics =>
        .ok
          { source := .beszel
            syncedAt := env.now
            summary := buildSummary items rows
            metrics := metrics
            rows := if rows.length > 0 then rows else mockRows }

/-- The homelab `GET` handler: any thrown failure falls back to the mock
snapshot; the HTTP status is always 200. -/
def homelabGET (env : HomelabEnv) : Snapshot :=
  match buildBeszelSnapshot env with
  | .ok snapshot => snapshot
  | .error _ => buildMockSnapshot env.now

/-! ### Spotify proxy embedding (`src/pages/api/spotify.ts`) -/

/-- Origin marker of a now-playing payload. -/
inductive PlaySource where
  | spotify | unconfigured | error
deriving DecidableEq, Repr

/-- The payload returned to callers of the now-playing proxy. An absent
optional `message` key is `none`. -/
structure NowPlayingPayload where
  source : PlaySource
  isPlaying : Bool
  title : Option String
  artist : Option String
  songUrl : Option String
  albumImageUrl : Option String
  playedAt : Option String
  message : Option String
deriving DecidableEq, Repr

/-- An HTTP status plus payload, as produced by one fetch cycle. -/
structure EndpointResult where
  status : ℕ
  payload : NowPlayingPayload
deriving DecidableEq, Repr

/-- The four track fields extracted by `parseTrack`. -/
structure ParsedTrack where
  title : Option String
  artist : Option String
  songUrl : Option String
  albumImageUrl : Option String
deriving DecidableEq, Repr

/-- `Array.prototype.join` with a separator. -/
def joinJs (sep : String) : List String → String
  | [] => ""
  | [s] => s
  | s :: s2 :: rest => s ++ sep ++ joinJs sep (s2 :: rest)

/-- `parseTrack`: trimmed non-blank name, comma-joined non-blank trimmed
artist names, first external URL, first album image URL; absent or
mistyped fields become null. -/
def parseTrack (track : JVal) : ParsedTrack :=
  if ¬ jsTruthy track then ⟨none, none, none, none⟩
  else
    let title :=
      match jsField track "name" with
      | .str s => if jsTrim s ≠ "" then some (jsTrim s) else none
      | _ => none
    let artistNames :=
      (match jsField track "artists" with
       | .arr xs =>
          xs.map fun a => match jsField a "name" with | .str s => jsTrim s | _ => ""
       | _ => []).filter fun s => s != ""
    let artist := if artistNames.length > 0 then some (joinJs ", " artistNames) else none
    let songUrl :=
      match jsField (jsField track "external_urls") "spotify" with
      | .str s => some s
      | _ => none
    let images := jsField (jsField track "album") "images"
    let albumImageUrl :=
      match images with
      | .arr xs =>
        match jsField (xs.getD 0 .undefined) "url" with
        | .str s => some s
        | _ => none
      | _ => none
    ⟨title, artist, songUrl, albumImageUrl⟩

/-- `normalizeToken`: a trimmed non-empty string, else null. -/
def normalizeToken (value : JVal) : Option String :=
  match value with
  | .str s => if (jsTrim s).length > 0 then some (jsTrim s) else none
  | _ => none

/-- Where a refresh-token candidate came from. -/
inductive CandidateSource where
  | stored | env
deriving DecidableEq, Repr

/-- A refresh-token candidate. -/
structure TokenCandidate where
  src : CandidateSource
  value : String
deriving DecidableEq, Repr

/-- `tokenCandidates`: the stored token first, then the env token when it
is present and differs from the stored one. -/
def tokenCandidates (storedRefreshToken envRefreshToken : Option String) : List TokenCandidate :=
  (match storedRefreshToken with
   | some s => [⟨.stored, s⟩]
   | none => []) ++
  (match envRefreshToken with
   | some e => if storedRefreshToken ≠ some e then [⟨.env, e⟩] else []
   | none => [])

/-- The outcome of a successful token exchange. -/
structure RefreshTokenResponse where
  accessToken : String
  rotatedRefreshToken : Option String
deriving DecidableEq, Repr

/-- One observable run of `resolveSpotifySession`: its outcome, the
candidates attempted in order, and each `persistRefreshToken` call with
the token written and the result of the write. -/
structure ResolveTrace where
  outcome : Except String String
  attempted : List TokenCandidate
  persistCalls : List (String × Except String Unit)

/-- The candidate loop of `resolveSpotifySession`. On the first candidate
whose exchange succeeds, the working refresh token is the rotated token
when present, else the candidate itself; it is persisted exactly when it
differs from the token read from the store, and a persist failure is
swallowed. On failure the loop records the error and moves on; an
exhausted list rethrows the last error. -/
def resolveGo (stored : Option String) (exchange : String → Except String RefreshTokenResponse)
    (persist : String → Except String Unit) :
    List TokenCandidate → Option String →
      Except String String × List TokenCandidate × List (String × Except String Unit)
  | [], lastErr => (.error (lastErr.getD "Failed to refresh Spotify access token"), [], [])
  | c :: rest, lastErr =>
    match exchange c.value with
    | .ok tokenResult =>
      let latest := tokenResult.rotatedRefreshToken.getD c.value
      let calls := if some latest ≠ stored then [(latest, persist latest)] else []
      (.ok tokenResult.accessToken, [c], calls)
    | .error e =>
      let _ := lastErr
      let r := resolveGo stored exchange persist rest (some e)
      (r.1, c :: r.2.1, r.2.2)

/-- `resolveSpotifySession`, with the store read, the token exchange and
the store write supplied as oracles. -/
def resolveSpotifySession (storedRefreshToken envRefreshToken : Option String)
    (exchange : String → Except String RefreshTokenResponse)
    (persist : String → Except String Unit) : ResolveTrace :=
  let candidates := tokenCandidates storedRefreshToken envRefreshToken
  if candidates.isEmpty then ⟨.error "Missing Spotify refresh token", [], []⟩
  else
    let r := resolveGo storedRefreshToken exchange persist candidates none
    ⟨r.1, r.2.1, r.2.2⟩

/-- Specification-side scan: the first candidate whose exchange succeeds,
with its response and position. -/
def firstSuccess (exchange : String → Except String RefreshTokenResponse) :
    List TokenCandidate → Option (TokenCandidate × RefreshTokenResponse × ℕ)
  | [] => none
  | c :: rest =>
    match exchange c.value with
    | .ok tr => some (c, tr, 0)
    | .error _ => (firstSuccess exchange rest).map fun x => (x.1, x.2.1, x.2.2 + 1)

/-- The three cache-TTL configuration values, as parsed by
`Number.parseInt`; a NaN parse is `none`. -/
structure TtlConfig where
  responseMs : Option ℤ
  errorMs : Option ℤ
  unconfiguredMs : Option ℤ

/-- `effectiveTtl`: the configured value unless it is non-finite or
negative, in which case the fallback. -/
def effectiveTtl (value : Option ℤ) (fallback : ℤ) : ℤ :=
  match value with
  | none => fallback
  | some v => if v < 0 then fallback else v

/-- `cacheTtlFor`: TTL by outcome class, with the source defaults. -/
def cacheTtlFor (cfg : TtlConfig) (result : EndpointResult) : ℤ :=
  if result.payload.source = .error then effectiveTtl cfg.errorMs 5000
  else if result.payload.source = .unconfigured then effectiveTtl cfg.unconfiguredMs 60000
  else effectiveTtl cfg.responseMs 300000

/-- A cached `(status, payload)` pair with its absolute expiry. -/
structure CachedResponse where
  status : ℕ
  payload : NowPlayingPayload
  expiresAt : ℤ
deriving DecidableEq, Repr

/-- `buildCachedResult` at time `now`. -/
def buildCachedResult (cfg : TtlConfig) (now : ℤ) (result : EndpointResult) : CachedResponse :=
  ⟨result.status, result.payload, now + cacheTtlFor cfg result⟩

/-- `readFreshCache` at time `now`. -/
def readFreshCache (cached : Option CachedResponse) (now : ℤ) : Option EndpointResult :=
  match cached with
  | none => none
  | some c => if now ≥ c.expiresAt then none else some ⟨c.status, c.payload⟩

/-- An upstream HTTP response: status plus parsed JSON body; `none` models
a body on which `response.json()` throws. -/
structure HttpResp where
  status : ℕ
  body : Option JVal

/-- Oracle inputs of one live fetch: whether client credentials are
configured, the session resolution outcome, and the two playback
responses. -/
structure SpotifyEnv where
  hasCredentials : Bool
  session : Except String String
  nowPlaying : Except String HttpResp
  recentlyPlayed : Except String HttpResp

/-- The 502 payload produced when the live fetch fails. -/
def errorPayload : NowPlayingPayload :=
  ⟨.error, false, none, none, none, none, none, some "Unable to reach Spotify API."⟩

/-- The payload returned when client credentials are missing. -/
def unconfiguredPayload : NowPlayingPayload :=
  ⟨.unconfigured, false, none, none, none, none, none,
    some "Spotify client credentials are not configured on the server."⟩

/-- The all-null payload returned when neither endpoint has a track. -/
def emptySpotifyPayload : NowPlayingPayload :=
  ⟨.spotify, false, none, none, none, none, none, none⟩

/-- The try-block of `fetchLiveResult`. Errors and results carry a flag
recording whether the recently-played endpoint was queried. -/
def fetchLiveAttempt (env : SpotifyEnv) : Except (String × Bool) (EndpointResult × Bool) :=
  match env.session with
  | .error e => .error (e, false)
  | .ok _accessToken =>
    match env.nowPlaying with
    | .error e => .error (e, false)
    | .ok np =>
      let afterNow : Except (String × Bool) (Option (EndpointResult × Bool)) :=
        if np.status = 200 then
          match np.body with
          | none => .error ("SyntaxError: invalid JSON", false)
          | some data =>
            match jsGetThrow data "item" with
            | .error e => .error (e, false)
            | .ok item =>
              let track := parseTrack item
              if track.title.isSome || track.artist.isSome then
                match jsGetThrow data "is_playing" with
                | .error e => .error (e, false)
                | .ok ip =>
                  .ok (some (⟨200, ⟨.spotify, jsTruthy ip, track.title, track.artist,
                    track.songUrl, track.albumImageUrl, none, none⟩⟩, false))
              else .ok none
        else if np.status ≠ 204 then
          .error ("Spotify currently-playing request failed with status " ++ toString np.status, false)
        else .ok none
      match afterNow with
      | .error e => .error e
      | .ok (some r) => .ok r
      | .ok none =>
        match env.recentlyPlayed with
        | .error e => .error (e, true)
        | .ok rp =>
          if rp.status = 200 then
            match rp.body with
            | none => .error ("SyntaxError: invalid JSON", true)
            | some data =>
              match jsGetThrow data "items" with
              | .error e => .error (e, true)
              | .ok items =>
                let item := match items with | .arr xs => xs.getD 0 .undefined | _ => .undefined
                let track := parseTrack (jsField item "track")
                let playedAt := match jsField item "played_at" with | .str s => some s | _ => none
                .ok (⟨200, ⟨.spotify, false, track.title, track.artist,
                  track.songUrl, track.albumImageUrl, playedAt, none⟩⟩, true)
          else if rp.status ≠ 204 then
            .error ("Spotify recently-played request failed with status " ++ toString rp.status, true)
          else .ok (⟨200, emptySpotifyPayload⟩, true)

/-- `fetchLiveResult`: the unconfigured short-circuit, then the try-block
with every thrown error collapsed to the 502 error result. The boolean
records whether the recently-played endpoint was queried. -/
def fetchLiveResult (env : SpotifyEnv) : EndpointResult × Bool :=
  if ¬ env.hasCredentials then (⟨200, unconfiguredPayload⟩, false)
  else
    match fetchLiveAttempt env with
    | .ok r => r
    | .error (_, queried) => (⟨502, errorPayload⟩, queried)

/-- The module-level mutable state of the now-playing proxy: the cache
slot and the in-flight marker (here the value the pending promise will
resolve to). -/
structure CacheState where
  cachedResponse : Option CachedResponse
  inFlightResponse : Option EndpointResult
deriving DecidableEq, Repr

/-- Observable mutations of the shared state, in execution order. -/
inductive CacheEv where
  | setInFlight | storeCache | clearInFlight
deriving DecidableEq, Repr

/-- `getCachedOrFreshResult` as a state transformer over one request,
with the event trace of the shared-state mutations. The event order in the
fresh-fetch branch follows single-threaded JS semantics: the IIFE is
assigned to `inFlightResponse` (setInFlight); when `fetchLiveResult`
resolves, the IIFE body stores `cachedResponse` (storeCache) and only then
does its promise resolve, waking the awaiting `try` whose `finally` nulls
the marker (clearInFlight). When the awaited operation rejects, nothing is
cached and the `finally` still clears the marker. -/
def getCachedOrFreshResult (cfg : TtlConfig) (st : CacheState) (now : ℤ)
    (fetchResult : Except String EndpointResult) :
    Except String EndpointResult × CacheState × List CacheEv :=
  match readFreshCache st.cachedResponse now with
  | some fromCache => (.ok fromCache, st, [])
  | none =>
    match st.inFlightResponse with
    | some pending => (.ok pending, st, [])
    | none =>
      match fetchResult with
      | .ok result =>
        (.ok result,
          ⟨some (buildCachedResult cfg now result), none⟩,
          [.setInFlight, .storeCache, .clearInFlight])
      | .error e =>
        (.error e, ⟨st.cachedResponse, none⟩, [.setInFlight, .clearInFlight])

/-- Position of the first occurrence of an event in a trace. -/
def idxOfEv (e : CacheEv) : List CacheEv → Option ℕ
  | [] => none
  | x :: rest => if x = e then some 0 else (idxOfEv e rest).map (· + 1)

/-! ### Claim C1: status classification precedence -/

/-- C1 counterexample: a status containing both "degraded" and "running"
is classified as running, not degraded, because the running check comes
first in `normalizeStatus`. -/
theorem c1_statusPrecedence_counterexample :
    normalizeStatus (.str "degraded running") = Status.running ∧
    normalizeStatus (.str "degraded running") ≠ Status.degraded := by decide

/-- C1 (amended): for every raw status value whose lowercased string form
contains both "degraded" and "running", `normalizeStatus` classifies it as
running: the substring checks are applied in the precedence order
degraded < running (running checked first, first match wins), and running
is also the default when no listed substring matches. -/
theorem c1_statusPrecedence :
    (∀ v : JVal, strIncludes (statusStringOf v) "running" = true →
      strIncludes (statusStringOf v) "degraded" = true →
      normalizeStatus v = Status.running) ∧
    (∀ v : JVal,
      (∀ sub ∈ ["running", "up", "healthy", "active", "degraded", "warning", "unhealthy",
        "error", "pending", "starting", "init", "create", "exit", "stopped", "dead",
        "inactive"], strIncludes (statusStringOf v) sub = false) →
      normalizeStatus v = Status.running) := by
  constructor
  · intro v hr _hd
    simp [normalizeStatus, hr]
  · intro v h
    have h1 := h "running" (by simp)
    have h2 := h "up" (by simp)
    have h3 := h "healthy" (by simp)
    have h4 := h "active" (by simp)
    have h5 := h "degraded" (by simp)
    have h6 := h "warning" (by simp)
    have h7 := h "unhealthy" (by simp)
    have h8 := h "error" (by simp)
    have h9 := h "pending" (by simp)
    have h10 := h "starting" (by simp)
    have h11 := h "init" (by simp)
    have h12 := h "create" (by simp)
    have h13 := h "exit" (by simp)
    have h14 := h "stopped" (by simp)
    have h15 := h "dead" (by simp)
    have h16 := h "inactive" (by simp)
    simp [normalizeStatus, h1, h2, h3, h4, h5, h6, h7, h8, h9, h10, h11, h12, h13, h14,
      h15, h16]

/-- C1 witness: the amended theorem applied at concrete statuses. -/
theorem c1_statusPrecedence_witness :
    normalizeStatus (.str "running but degraded") = Status.running ∧
    normalizeStatus (.str "zzz") = Status.running :=
  ⟨c1_statusPrecedence.1 (.str "running but degraded") (by decide) (by decide),
   c1_statusPrecedence.2 (.str "zzz") (by decide)⟩

/-! ### Claim C8: formatBytes characterization -/

/-- C8 counterexample: in `src/pages/api/homelab.ts`, an unparsable
string is returned verbatim by `formatBytes`, not replaced by the
fallback (the variant copy does return the fallback). -/
theorem c8_formatBytes_counterexample :
    toNumber (.str "abc") = none ∧
    formatBytes (.str "abc") "0MiB" = "abc" ∧
    formatBytes (.str "abc") "0MiB" ≠ "0MiB" ∧
    formatBytesVariant (.str "abc") "0MiB" = "0MiB" := by decide

/-- Written from the amended claim: the homelab `formatBytes` returns an
unparsable string verbatim and the fallback for other unparsable values;
v ≤ 0 gives "0MiB"; 0 < v ≤ 10000 is taken as mebibytes already; v > 10000
is taken as raw bytes and divided by 2 ^ 20; rounding is half-up. -/
def formatBytesSpec (value : JVal) (fallback : String) : String :=
  match toNumber value with
  | none => match value with | .str s => s | _ => fallback
  | some v =>
    if v ≤ 0 then "0MiB"
    else if v ≤ 10000 then toString (jsRound v) ++ "MiB"
    else toString (jsRound (qDiv v (2 ^ 20))) ++ "MiB"

/-- Written from the amended claim: the variant copy replaces every
unparsable value by the fallback and is otherwise identical. -/
def formatBytesVariantSpec (value : JVal) (fallback : String) : String :=
  match toNumber value with
  | none => fallback
  | some v =>
    if v ≤ 0 then "0MiB"
    else if v ≤ 10000 then toString (jsRound v) ++ "MiB"
    else toString (jsRound (qDiv v (2 ^ 20))) ++ "MiB"

/-- C8 (amended): both `formatBytes` copies match their amended
specification: unparsable values give the original string (homelab copy,
strings only) or the fallback; parsed v ≤ 0 gives "0MiB"; 0 < v ≤ 10000
gives round(v)MiB; v > 10000 gives round(v / 2 ^ 20)MiB. -/
theorem c8_formatBytes (v : JVal) (fb : String) :
    formatBytes v fb = formatBytesSpec v fb ∧
    formatBytesVariant v fb = formatBytesVariantSpec v fb := by
  have key : ∀ q : ℚ, ¬ q ≤ 0 →
      (toString (jsRound (if q > 10000 then qDiv q (qMul 1024 1024) else q)) ++ "MiB" : String) =
      (if q ≤ 10000 then toString (jsRound q) ++ "MiB"
       else toString (jsRound (qDiv q (2 ^ 20))) ++ "MiB") := by
    intro q _
    by_cases h : q ≤ 10000
    · rw [if_neg (not_lt.mpr h), if_pos h]
    · rw [if_pos (lt_of_not_le h), if_neg h]
      have hm : qMul 1024 1024 = (2 ^ 20 : ℚ) := by rw [qMul_eq]; norm_num
      rw [hm]
  constructor
  · unfold formatBytes formatBytesSpec
    cases htn : toNumber v with
    | none => simp only [htn]
    | some q =>
      simp only [htn]
      by_cases h0 : q ≤ 0
      · simp [h0]
      · simp only [if_neg h0]
        exact key q h0
  · unfold formatBytesVariant formatBytesVariantSpec
    cases htn : toNumber v with
    | none => simp only [htn]
    | some q =>
      simp only [htn]
      by_cases h0 : q ≤ 0
      · simp [h0]
      · simp only [if_neg h0]
        exact key q h0

/-! ### Claim C9: cache TTL classes and fresh-cache hits -/

/-- C9 (confirmed): the TTL of a cached result depends only on its outcome
class — the error TTL for source error (default 5000), the unconfigured
TTL (default 60000), the response TTL for spotify (default 300000), with a
non-finite or negative configured value replaced by its default — and a
request arriving strictly before the expiry returns the cached status and
payload unchanged. -/
theorem c9_cacheTtl :
    (∀ cfg r1 r2, r1.payload.source = r2.payload.source →
      cacheTtlFor cfg r1 = cacheTtlFor cfg r2) ∧
    (∀ cfg r, r.payload.source = .error → cacheTtlFor cfg r = effectiveTtl cfg.errorMs 5000) ∧
    (∀ cfg r, r.payload.source = .unconfigured →
      cacheTtlFor cfg r = effectiveTtl cfg.unconfiguredMs 60000) ∧
    (∀ cfg r, r.payload.source = .spotify →
      cacheTtlFor cfg r = effectiveTtl cfg.responseMs 300000) ∧
    (∀ fb, effectiveTtl none fb = fb) ∧
    (∀ n fb, n < 0 → effectiveTtl (some n) fb = fb) ∧
    (∀ n fb, 0 ≤ n → effectiveTtl (some n) fb = n) ∧
    (∀ c now, now < c.expiresAt →
      readFreshCache (some c) now = some ⟨c.status, c.payload⟩) ∧
    (∀ cfg st now fr c, st.cachedResponse = some c → now < c.expiresAt →
      getCachedOrFreshResult cfg st now fr = (.ok ⟨c.status, c.payload⟩, st, [])) := by
  have hfresh : ∀ (c : CachedResponse) (now : ℤ), now < c.expiresAt →
      readFreshCache (some c) now = some ⟨c.status, c.payload⟩ := by
    intro c now h
    simp [readFreshCache, not_le.mpr h]
  refine ⟨?_, ?_, ?_, ?_, ?_, ?_, ?_, hfresh, ?_⟩
  · intro cfg r1 r2 h
    unfold cacheTtlFor
    rw [h]
  · intro cfg r h
    simp [cacheTtlFor, h]
  · intro cfg r h
    simp [cacheTtlFor, h]
  · intro cfg r h
    simp [cacheTtlFor, h]
  · intro fb
    rfl
  · intro n fb h
    simp [effectiveTtl, h]
  · intro n fb h
    simp [effectiveTtl, not_lt.mpr h]
  · intro cfg st now fr c hc hlt
    unfold getCachedOrFreshResult
    rw [hc, hfresh c now hlt]

/-- C9 witness: the defaults and a cache hit at concrete values. -/
theorem c9_cacheTtl_witness :
    cacheTtlFor ⟨none, none, none⟩ ⟨502, errorPayload⟩ = effectiveTtl none 5000 ∧
    cacheTtlFor ⟨none, none, none⟩ ⟨200, unconfiguredPayload⟩ = effectiveTtl none 60000 ∧
    cacheTtlFor ⟨none, none, none⟩ ⟨200, emptySpotifyPayload⟩ = effectiveTtl none 300000 ∧
    effectiveTtl (some (-7)) 5000 = 5000 ∧
    effectiveTtl (some 42) 5000 = 42 ∧
    getCachedOrFreshResult ⟨none, none, none⟩
        ⟨some ⟨200, emptySpotifyPayload, 10⟩, none⟩ 3 (.error "ignored") =
      (.ok ⟨200, emptySpotifyPayload⟩, ⟨some ⟨200, emptySpotifyPayload, 10⟩, none⟩, []) :=
  ⟨c9_cacheTtl.2.1 ⟨none, none, none⟩ ⟨502, errorPayload⟩ (by decide),
   c9_cacheTtl.2.2.1 ⟨none, none, none⟩ ⟨200, unconfiguredPayload⟩ (by decide),
   c9_cacheTtl.2.2.2.1 ⟨none, none, none⟩ ⟨200, emptySpotifyPayload⟩ (by decide),
   c9_cacheTtl.2.2.2.2.2.1 (-7) 5000 (by decide),
   c9_cacheTtl.2.2.2.2.2.2.1 42 5000 (by decide),
   c9_cacheTtl.2.2.2.2.2.2.2.2 ⟨none, none, none⟩ ⟨some ⟨200, emptySpotifyPayload, 10⟩, none⟩
     3 (.error "ignored") ⟨200, emptySpotifyPayload, 10⟩ rfl (by decide)⟩

/-! ### Claim C2: in-flight marker versus cache store ordering -/

/-- Whether the first occurrence of `a` comes strictly before the first
occurrence of `b` in a trace (false when either is absent). -/
def evBefore (a b : CacheEv) (tr : List CacheEv) : Bool :=
  match idxOfEv a tr, idxOfEv b tr with
  | some i, some j => i < j
  | _, _ => false

/-- C2 counterexample: on a completed fresh fetch the cache store happens
strictly before the in-flight marker is cleared, so the marker is not
reset before the result is stored. -/
theorem c2_inFlightOrdering_counterexample :
    (getCachedOrFreshResult ⟨none, none, none⟩ ⟨none, none⟩ 0
        (.ok ⟨200, emptySpotifyPayload⟩)).2.2 =
      [.setInFlight, .storeCache, .clearInFlight] ∧
    evBefore .clearInFlight .storeCache
      (getCachedOrFreshResult ⟨none, none, none⟩ ⟨none, none⟩ 0
        (.ok ⟨200, emptySpotifyPayload⟩)).2.2 = false ∧
    evBefore .storeCache .clearInFlight
      (getCachedOrFreshResult ⟨none, none, none⟩ ⟨none, none⟩ 0
        (.ok ⟨200, emptySpotifyPayload⟩)).2.2 = true := by decide

/-- C2 (amended): whenever a fresh fetch started by
`getCachedOrFreshResult` completes, the in-flight marker ends up null; on
success the result is stored into the cache slot strictly before the
marker is cleared, and on rejection nothing is cached and the marker is
still cleared. -/
theorem c2_inFlightOrdering (cfg : TtlConfig) (st : CacheState) (now : ℤ)
    (fr : Except String EndpointResult)
    (hmiss : readFreshCache st.cachedResponse now = none)
    (hnofl : st.inFlightResponse = none) :
    (getCachedOrFreshResult cfg st now fr).2.1.inFlightResponse = none ∧
    (∀ r, fr = .ok r →
      (getCachedOrFreshResult cfg st now fr).2.1.cachedResponse =
        some (buildCachedResult cfg now r) ∧
      (getCachedOrFreshResult cfg st now fr).2.2 =
        [.setInFlight, .storeCache, .clearInFlight] ∧
      evBefore .storeCache .clearInFlight (getCachedOrFreshResult cfg st now fr).2.2 = true ∧
      evBefore .clearInFlight .storeCache (getCachedOrFreshResult cfg st now fr).2.2 = false) ∧
    (∀ e, fr = .error e →
      (getCachedOrFreshResult cfg st now fr).2.1.cachedResponse = st.cachedResponse ∧
      (getCachedOrFreshResult cfg st now fr).2.2 = [.setInFlight, .clearInFlight]) := by
  unfold getCachedOrFreshResult
  rw [hmiss, hnofl]
  cases fr with
  | ok r =>
    refine ⟨rfl, ?_, ?_⟩
    · intro r2 hr
      cases hr
      exact ⟨rfl, rfl, rfl, rfl⟩
    · intro e2 he
      cases he
  | error e =>
    refine ⟨rfl, ?_, ?_⟩
    · intro r2 hr
      cases hr
    · intro e2 he
      cases he
      exact ⟨rfl, rfl⟩

/-- C2 witness: the amended theorem at a concrete completed fetch. -/
theorem c2_inFlightOrdering_witness :
    (getCachedOrFreshResult ⟨none, none, none⟩ ⟨none, none⟩ 5
        (.ok ⟨502, errorPayload⟩)).2.1.inFlightResponse = none ∧
    (getCachedOrFreshResult ⟨none, none, none⟩ ⟨none, none⟩ 5
        (.ok ⟨502, errorPayload⟩)).2.1.cachedResponse =
      some (buildCachedResult ⟨none, none, none⟩ 5 ⟨502, errorPayload⟩) :=
  ⟨(c2_inFlightOrdering ⟨none, none, none⟩ ⟨none, none⟩ 5 (.ok ⟨502, errorPayload⟩)
      (by decide) rfl).1,
   ((c2_inFlightOrdering ⟨none, none, none⟩ ⟨none, none⟩ 5 (.ok ⟨502, errorPayload⟩)
      (by decide) rfl).2.1 ⟨502, errorPayload⟩ rfl).1⟩

/-! ### Claims C6, C7, C10: refresh-token resolution -/

/-- The candidate loop realizes the first-success scan: when some
candidate succeeds, the outcome is its access token and exactly the
candidates up to and including it were attempted; when none succeeds the
outcome is an error and every candidate was attempted. -/
theorem resolveGo_spec (stored : Option String)
    (exchange : String → Except String RefreshTokenResponse)
    (persist : String → Except String Unit) (l : List TokenCandidate) :
    ∀ lastErr : Option String,
      (∀ c tr n, firstSuccess exchange l = some (c, tr, n) →
        (resolveGo stored exchange persist l lastErr).1 = .ok tr.accessToken ∧
        (resolveGo stored exchange persist l lastErr).2.1 = l.take (n + 1)) ∧
      (firstSuccess exchange l = none →
        (∃ e, (resolveGo stored exchange persist l lastErr).1 = .error e) ∧
        (resolveGo stored exchange persist l lastErr).2.1 = l) := by
  induction l with
  | nil =>
    intro lastErr
    constructor
    · intro c tr n h
      simp [firstSuccess] at h
    · intro _h
      exact ⟨⟨lastErr.getD "Failed to refresh Spotify access token", rfl⟩, rfl⟩
  | cons c0 rest ih =>
    intro lastErr
    cases hex : exchange c0.value with
    | ok tr0 =>
      constructor
      · intro c tr n h
        simp only [firstSuccess, hex] at h
        obtain ⟨rfl, rfl, rfl⟩ : c0 = c ∧ tr0 = tr ∧ 0 = n := by
          injection h with h2
          injection h2 with ha hb
          injection hb with hb hc
          exact ⟨ha, hb, hc⟩
        simp [resolveGo, hex]
      · intro h
        simp [firstSuccess, hex] at h
    | error e0 =>
      constructor
      · intro c tr n h
        cases hr : firstSuccess exchange rest with
        | none =>
          simp only [firstSuccess, hex, hr, Option.map_none'] at h
          exact Option.noConfusion h
        | some x =>
          obtain ⟨c1, tr1, n1⟩ := x
          simp only [firstSuccess, hex, hr, Option.map_some'] at h
          obtain ⟨hc, htr, hn⟩ : c1 = c ∧ tr1 = tr ∧ n1 + 1 = n := by
            injection h with h2
            injection h2 with ha hb
            injection hb with hb hc2
            exact ⟨ha, hb, hc2⟩
          subst hc
          subst htr
          subst hn
          have hrec := ((ih (some e0)).1) c1 tr1 n1 hr
          constructor
          · simp [resolveGo, hex, hrec.1]
          · simp [resolveGo, hex, hrec.2, List.take_succ_cons]
      · intro h
        cases hr : firstSuccess exchange rest with
        | none =>
          have hrec := (ih (some e0)).2 hr
          obtain ⟨⟨e1, he1⟩, hatt⟩ := hrec
          refine ⟨⟨e1, ?_⟩, ?_⟩ <;> simp [resolveGo, hex, he1, hatt]
        | some x =>
          simp only [firstSuccess, hex, hr, Option.map_some'] at h
          cases h

/-- The outcome and the attempted list never depend on the persist
oracle. -/
theorem resolveGo_persist_irrel (stored : Option String)
    (exchange : String → Except String RefreshTokenResponse)
    (p1 p2 : String → Except String Unit) (l : List TokenCandidate) :
    ∀ lastErr : Option String,
      (resolveGo stored exchange p1 l lastErr).1 = (resolveGo stored exchange p2 l lastErr).1 ∧
      (resolveGo stored exchange p1 l lastErr).2.1 =
        (resolveGo stored exchange p2 l lastErr).2.1 := by
  induction l with
  | nil => intro lastErr; exact ⟨rfl, rfl⟩
  | cons c0 rest ih =>
    intro lastErr
    cases hex : exchange c0.value with
    | ok tr0 => simp [resolveGo, hex]
    | error e0 =>
      have := ih (some e0)
      simp [resolveGo, hex, this.1, this.2]

/-- The persist calls of the candidate loop: exactly one write, of the
working refresh token of the first successful candidate, when that token
differs from the stored one; no write otherwise. -/
theorem resolveGo_persistCalls (stored : Option String)
    (exchange : String → Except String RefreshTokenResponse)
    (persist : String → Except String Unit) (l : List TokenCandidate) :
    ∀ lastErr : Option String,
      (resolveGo stored exchange persist l lastErr).2.2 =
        match firstSuccess exchange l with
        | none => []
        | some (c, tr, _) =>
          if some (tr.rotatedRefreshToken.getD c.value) ≠ stored then
            [(tr.rotatedRefreshToken.getD c.value,
              persist (tr.rotatedRefreshToken.getD c.value))]
          else [] := by
  induction l with
  | nil => intro lastErr; rfl
  | cons c0 rest ih =>
    intro lastErr
    cases hex : exchange c0.value with
    | ok tr0 => simp [resolveGo, firstSuccess, hex]
    | error e0 =>
      cases hr : firstSuccess exchange rest with
      | none => simp [resolveGo, firstSuccess, hex, hr, ih (some e0)]
      | some x =>
        obtain ⟨c1, tr1, n1⟩ := x
        simp [resolveGo, firstSuccess, hex, hr, ih (some e0)]

/-- With at least one candidate, the session resolver is exactly the
candidate loop started with no previous error. -/
theorem resolveSession_eq (storedRefreshToken envRefreshToken : Option String)
    (exchange : String → Except String RefreshTokenResponse)
    (persist : String → Except String Unit)
    (h : tokenCandidates storedRefreshToken envRefreshToken ≠ []) :
    resolveSpotifySession storedRefreshToken envRefreshToken exchange persist =
      ⟨(resolveGo storedRefreshToken exchange persist
          (tokenCandidates storedRefreshToken envRefreshToken) none).1,
        (resolveGo storedRefreshToken exchange persist
          (tokenCandidates storedRefreshToken envRefreshToken) none).2.1,
        (resolveGo storedRefreshToken exchange persist
          (tokenCandidates storedRefreshToken envRefreshToken) none).2.2⟩ := by
  unfold resolveSpotifySession
  rw [if_neg (by simpa using h)]

/-- C6 (confirmed): at most two deduplicated candidates with the stored
one first; the first candidate whose exchange succeeds determines the
returned access token and no later candidate is attempted; when no
candidate succeeds (in particular when none exist) resolution fails. -/
theorem c6_firstSuccessWins (stored envTok : Option String)
    (exchange : String → Except String RefreshTokenResponse)
    (persist : String → Except String Unit) :
    (tokenCandidates stored envTok).length ≤ 2 ∧
    ((tokenCandidates stored envTok).map TokenCandidate.value).Nodup ∧
    (∀ s, stored = some s → (tokenCandidates stored envTok).head? = some ⟨.stored, s⟩) ∧
    (∀ c tr n, firstSuccess exchange (tokenCandidates stored envTok) = some (c, tr, n) →
      (resolveSpotifySession stored envTok exchange persist).outcome = .ok tr.accessToken ∧
      (resolveSpotifySession stored envTok exchange persist).attempted =
        (tokenCandidates stored envTok).take (n + 1)) ∧
    (firstSuccess exchange (tokenCandidates stored envTok) = none →
      ∃ e, (resolveSpotifySession stored envTok exchange persist).outcome = .error e) := by
  refine ⟨?_, ?_, ?_, ?_, ?_⟩
  · cases stored with
    | none => cases envTok <;> simp [tokenCandidates]
    | some s0 =>
      cases envTok with
      | none => simp [tokenCandidates]
      | some e0 =>
        by_cases heq : (some s0 : Option String) ≠ some e0 <;>
          simp [tokenCandidates, heq]
  · cases stored with
    | none => cases envTok <;> simp [tokenCandidates]
    | some s0 =>
      cases envTok with
      | none => simp [tokenCandidates]
      | some e0 =>
        by_cases heq : (some s0 : Option String) ≠ some e0
        · have hne : s0 ≠ e0 := fun hh => heq (by rw [hh])
          simp [tokenCandidates, heq, hne]
        · simp [tokenCandidates, heq]
  · intro s hs
    subst hs
    cases envTok with
    | none => simp [tokenCandidates]
    | some e0 =>
      by_cases heq : (some s : Option String) ≠ some e0 <;> simp [tokenCandidates, heq]
  · intro c tr n h
    have hne : tokenCandidates stored envTok ≠ [] := by
      intro hnil
      rw [hnil] at h
      simp [firstSuccess] at h
    rw [resolveSession_eq stored envTok exchange persist hne]
    exact (resolveGo_spec stored exchange persist (tokenCandidates stored envTok) none).1 c tr n h
  · intro h
    cases hcs : tokenCandidates stored envTok with
    | nil =>
      refine ⟨"Missing Spotify refresh token", ?_⟩
      unfold resolveSpotifySession
      rw [if_pos (by simp [hcs])]
    | cons a as =>
      have hne : tokenCandidates stored envTok ≠ [] := by rw [hcs]; simp
      obtain ⟨⟨e, he⟩, _⟩ :=
        (resolveGo_spec stored exchange persist (tokenCandidates stored envTok) none).2 h
      refine ⟨e, ?_⟩
      rw [resolveSession_eq stored envTok exchange persist hne]
      exact he

/-- C6 witness: with a failing stored candidate and a succeeding env
candidate, resolution returns the env token exchange and attempted both
candidates, in order. -/
theorem c6_firstSuccessWins_witness :
    (resolveSpotifySession (some "a") (some "b")
        (fun t => if t = "b" then .ok ⟨"acc", none⟩ else .error "bad")
        (fun _ => .ok ())).outcome = .ok "acc" ∧
    (resolveSpotifySession (some "a") (some "b")
        (fun t => if t = "b" then .ok ⟨"acc", none⟩ else .error "bad")
        (fun _ => .ok ())).attempted =
      (tokenCandidates (some "a") (some "b")).take 2 :=
  (c6_firstSuccessWins (some "a") (some "b")
    (fun t => if t = "b" then .ok ⟨"acc", none⟩ else .error "bad")
    (fun _ => .ok ())).2.2.2.1 ⟨.env, "b"⟩ ⟨"acc", none⟩ 1 (by decide)

/-- C7 (confirmed): the resolution outcome and the attempted candidates
never depend on the persist oracle, and in particular a first successful
exchange still yields its access token when every store write throws, so
a token-store write failure never fails the fetch cycle. -/
theorem c7_persistFailureSwallowed (stored envTok : Option String)
    (exchange : String → Except String RefreshTokenResponse) :
    (∀ p1 p2,
      (resolveSpotifySession stored envTok exchange p1).outcome =
        (resolveSpotifySession stored envTok exchange p2).outcome ∧
      (resolveSpotifySession stored envTok exchange p1).attempted =
        (resolveSpotifySession stored envTok exchange p2).attempted) ∧
    (∀ e c tr n, firstSuccess exchange (tokenCandidates stored envTok) = some (c, tr, n) →
      (resolveSpotifySession stored envTok exchange (fun _ => .error e)).outcome =
        .ok tr.accessToken) := by
  constructor
  · intro p1 p2
    by_cases hne : tokenCandidates stored envTok = []
    · unfold resolveSpotifySession
      rw [if_pos (by simp [hne]), if_pos (by simp [hne])]
      exact ⟨rfl, rfl⟩
    · rw [resolveSession_eq stored envTok exchange p1 hne,
        resolveSession_eq stored envTok exchange p2 hne]
      have := resolveGo_persist_irrel stored exchange p1 p2
        (tokenCandidates stored envTok) none
      exact ⟨this.1, this.2⟩
  · intro e c tr n h
    have hne : tokenCandidates stored envTok ≠ [] := by
      intro hnil
      rw [hnil] at h
      simp [firstSuccess] at h
    rw [resolveSession_eq stored envTok exchange (fun _ => .error e) hne]
    exact ((resolveGo_spec stored exchange (fun _ => .error e)
      (tokenCandidates stored envTok) none).1 c tr n h).1

/-- C7 witness: a succeeding exchange with an always-throwing persist
oracle still returns the access token. -/
theorem c7_persistFailureSwallowed_witness :
    (resolveSpotifySession (some "a") none
        (fun _ => .ok ⟨"acc", some "rotated"⟩)
        (fun _ => .error "EACCES")).outcome = .ok "acc" :=
  (c7_persistFailureSwallowed (some "a") none
    (fun _ => .ok ⟨"acc", some "rotated"⟩)).2 "EACCES" ⟨.stored, "a"⟩
    ⟨"acc", some "rotated"⟩ 0 (by decide)

/-- C10 (confirmed): a token-store write is attempted exactly when the
working refresh token of the first successful candidate (its rotated
token, else its own value) differs from the token read from the store; in
particular an env candidate that succeeds without rotation over an empty
store persists the env token itself. -/
theorem c10_persistIffChanged (stored envTok : Option String)
    (exchange : String → Except String RefreshTokenResponse)
    (persist : String → Except String Unit) :
    ((resolveSpotifySession stored envTok exchange persist).persistCalls =
      match firstSuccess exchange (tokenCandidates stored envTok) with
      | none => []
      | some (c, tr, _) =>
        if some (tr.rotatedRefreshToken.getD c.value) ≠ stored then
          [(tr.rotatedRefreshToken.getD c.value,
            persist (tr.rotatedRefreshToken.getD c.value))]
        else []) ∧
    (∀ e a, stored = none → envTok = some e → exchange e = .ok ⟨a, none⟩ →
      (resolveSpotifySession stored envTok exchange persist).persistCalls =
        [(e, persist e)]) := by
  have hmain : (resolveSpotifySession stored envTok exchange persist).persistCalls =
      match firstSuccess exchange (tokenCandidates stored envTok) with
      | none => []
      | some (c, tr, _) =>
        if some (tr.rotatedRefreshToken.getD c.value) ≠ stored then
          [(tr.rotatedRefreshToken.getD c.value,
            persist (tr.rotatedRefreshToken.getD c.value))]
        else [] := by
    by_cases hne : tokenCandidates stored envTok = []
    · unfold resolveSpotifySession
      rw [if_pos (by simp [hne]), hne]
      rfl
    · rw [resolveSession_eq stored envTok exchange persist hne]
      exact resolveGo_persistCalls stored exchange persist
        (tokenCandidates stored envTok) none
  refine ⟨hmain, ?_⟩
  intro e a hstored henv hex
  subst hstored
  subst henv
  rw [hmain]
  have hcs : tokenCandidates none (some e) = [⟨.env, e⟩] := by simp [tokenCandidates]
  rw [hcs]
  simp [firstSuccess, hex]

/-- C10 witness: an env candidate succeeding without rotation over an
empty store persists the env token. -/
theorem c10_persistIffChanged_witness :
    (resolveSpotifySession none (some "envtok")
        (fun _ => .ok ⟨"acc", none⟩) (fun _ => .ok ())).persistCalls =
      [("envtok", (fun _ : String => (.ok () : Except String Unit)) "envtok")] :=
  (c10_persistIffChanged none (some "envtok")
    (fun _ => .ok ⟨"acc", none⟩) (fun _ => .ok ())).2 "envtok" "acc" rfl rfl rfl

/-! ### Claim C4: the currently-playing success path -/

/-- C4 counterexample: a 200 currently-playing response whose payload has
a track but `is_playing` false (or absent) is returned with
`isPlaying = false`, not `true`; the rest of the claim (source, playedAt,
no recently-played query) holds. -/
theorem c4_currentlyPlaying_counterexample :
    fetchLiveResult ⟨true, .ok "tok",
        .ok ⟨200, some (.obj [("is_playing", .bool false),
          ("item", .obj [("name", .str "Song")])])⟩,
        .ok ⟨204, none⟩⟩ =
      (⟨200, ⟨.spotify, false, some "Song", none, none, none, none, none⟩⟩, false) ∧
    (fetchLiveResult ⟨true, .ok "tok",
        .ok ⟨200, some (.obj [("is_playing", .bool false),
          ("item", .obj [("name", .str "Song")])])⟩,
        .ok ⟨204, none⟩⟩).1.payload.isPlaying ≠ true := by decide

/-- C4 (amended): whenever the currently-playing query returns HTTP 200
with a parsed body whose track has a non-null title or artist, the proxy
returns that track with source spotify, `playedAt = null` and `isPlaying`
equal to the boolean coercion of the response `is_playing` field, without
querying recently-played. -/
theorem c4_currentlyPlaying (env : SpotifyEnv) (tok : String) (resp : HttpResp)
    (data item ip : JVal)
    (hcred : env.hasCredentials = true)
    (hsess : env.session = .ok tok)
    (hnp : env.nowPlaying = .ok resp)
    (hstatus : resp.status = 200)
    (hbody : resp.body = some data)
    (hitem : jsGetThrow data "item" = .ok item)
    (htrack : (parseTrack item).title.isSome || (parseTrack item).artist.isSome)
    (hip : jsGetThrow data "is_playing" = .ok ip) :
    fetchLiveResult env =
      (⟨200, ⟨.spotify, jsTruthy ip, (parseTrack item).title, (parseTrack item).artist,
        (parseTrack item).songUrl, (parseTrack item).albumImageUrl, none, none⟩⟩, false) := by
  unfold fetchLiveResult fetchLiveAttempt
  rw [hcred, hsess, hnp]
  simp [hstatus, hbody, hitem, htrack, hip]

/-- C4 witness: the amended theorem at a concrete playing response. -/
theorem c4_currentlyPlaying_witness :
    fetchLiveResult ⟨true, .ok "tok",
        .ok ⟨200, some (.obj [("is_playing", .bool true),
          ("item", .obj [("name", .str "Song"),
            ("artists", .arr [.obj [("name", .str "Artist")]])])])⟩,
        .ok ⟨204, none⟩⟩ =
      (⟨200, ⟨.spotify,
        jsTruthy (.bool true),
        (parseTrack (.obj [("name", .str "Song"),
          ("artists", .arr [.obj [("name", .str "Artist")]])])).title,
        (parseTrack (.obj [("name", .str "Song"),
          ("artists", .arr [.obj [("name", .str "Artist")]])])).artist,
        (parseTrack (.obj [("name", .str "Song"),
          ("artists", .arr [.obj [("name", .str "Artist")]])])).songUrl,
        (parseTrack (.obj [("name", .str "Song"),
          ("artists", .arr [.obj [("name", .str "Artist")]])])).albumImageUrl,
        none, none⟩⟩, false) :=
  c4_currentlyPlaying
    ⟨true, .ok "tok",
      .ok ⟨200, some (.obj [("is_playing", .bool true),
        ("item", .obj [("name", .str "Song"),
          ("artists", .arr [.obj [("name", .str "Artist")]])])])⟩,
      .ok ⟨204, none⟩⟩
    "tok" ⟨200, some (.obj [("is_playing", .bool true),
      ("item", .obj [("name", .str "Song"),
        ("artists", .arr [.obj [("name", .str "Artist")]])])])⟩
    (.obj [("is_playing", .bool true),
      ("item", .obj [("name", .str "Song"),
        ("artists", .arr [.obj [("name", .str "Artist")]])])])
    (.obj [("name", .str "Song"), ("artists", .arr [.obj [("name", .str "Artist")]])])
    (.bool true)
    rfl rfl rfl rfl rfl rfl (by decide) rfl

/-! ### Claim C5: parseTrack output shape -/

/-- A trimmed non-empty string, as a decidable check. -/
def trimmedNonEmpty (s : String) : Bool := s != "" && jsTrim s == s

/-- Null or a trimmed non-empty string. -/
def nullOrTrimmedNonEmpty : Option String → Bool
  | none => true
  | some s => trimmedNonEmpty s

/-- C5 counterexample: `parseTrack` copies the external URL verbatim, so
an empty-string `external_urls.spotify` yields a `songUrl` that is neither
null nor a trimmed non-empty string (the same holds for an untrimmed
album image URL). -/
theorem c5_parseTrackShape_counterexample :
    (parseTrack (.obj [("external_urls", .obj [("spotify", .str "")])])).songUrl = some "" ∧
    nullOrTrimmedNonEmpty
      (parseTrack (.obj [("external_urls", .obj [("spotify", .str "")])])).songUrl = false ∧
    nullOrTrimmedNonEmpty
      (parseTrack (.obj [("album", .obj [("images",
        .arr [.obj [("url", .str " x ")]])])])).albumImageUrl = false := by decide

theorem string_eq_empty_iff {s : String} : s = "" ↔ s.data = [] := by
  cases s with
  | mk l =>
    constructor
    · intro h
      exact congrArg String.data h
    · intro h
      have hl : l = [] := h
      subst hl
      rfl

theorem head?_dropWhile_false {p : Char → Bool} {l : List Char} {c : Char}
    (h : (l.dropWhile p).head? = some c) : p c = false := by
  have hd := List.head?_dropWhile_not p l
  rw [h] at hd
  exact hd

theorem getLast?_dropWhile_of_ne_nil {p : Char → Bool} {l : List Char}
    (h : l.dropWhile p ≠ []) : (l.dropWhile p).getLast? = l.getLast? := by
  obtain ⟨t, ht⟩ := List.dropWhile_suffix (l := l) p
  conv_rhs => rw [← ht]
  rw [List.getLast?_append]
  cases hl : (l.dropWhile p).getLast? with
  | none =>
    exact absurd (List.getLast?_eq_none_iff.mp hl) h
  | some c => simp

/-- The first character of a trimmed string is not whitespace. -/
theorem jsTrim_head_not_ws {s : String} {c : Char}
    (h : (jsTrim s).data.head? = some c) : isJsWS c = false := by
  unfold jsTrim trimTail at h
  rw [List.head?_reverse] at h
  by_cases hne : (s.data.dropWhile isJsWS).reverse.dropWhile isJsWS = []
  · rw [hne] at h
    cases h
  · rw [getLast?_dropWhile_of_ne_nil hne, List.getLast?_reverse] at h
    exact head?_dropWhile_false h

/-- The last character of a trimmed string is not whitespace. -/
theorem jsTrim_getLast_not_ws {s : String} {c : Char}
    (h : (jsTrim s).data.getLast? = some c) : isJsWS c = false := by
  unfold jsTrim trimTail at h
  rw [List.getLast?_reverse] at h
  exact head?_dropWhile_false h

/-- A string whose edge characters are not whitespace trims to itself. -/
theorem jsTrim_eq_self {s : String}
    (h1 : ∀ c, s.data.head? = some c → isJsWS c = false)
    (h2 : ∀ c, s.data.getLast? = some c → isJsWS c = false) :
    jsTrim s = s := by
  have hdrop : s.data.dropWhile isJsWS = s.data := by
    cases hd : s.data with
    | nil => rfl
    | cons a t =>
      have := h1 a (by rw [hd]; rfl)
      rw [List.dropWhile_cons_of_neg (by simp [this])]
  have htail : trimTail s.data = s.data := by
    unfold trimTail
    cases hr : s.data.reverse with
    | nil =>
      rw [List.dropWhile_nil, ← hr, List.reverse_reverse]
    | cons a t =>
      have ha : s.data.getLast? = some a := by
        rw [List.getLast?_eq_head?_reverse, hr]
        rfl
      have := h2 a ha
      rw [List.dropWhile_cons_of_neg (by simp [this]), ← hr, List.reverse_reverse]
  unfold jsTrim
  rw [hdrop, htail]

/-- Trimming is idempotent. -/
theorem jsTrim_idem (s : String) : jsTrim (jsTrim s) = jsTrim s :=
  jsTrim_eq_self (fun _ h => jsTrim_head_not_ws h) (fun _ h => jsTrim_getLast_not_ws h)

/-- A non-empty trim result is a trimmed non-empty string. -/
theorem trimmedNonEmpty_jsTrim {s : String} (h : jsTrim s ≠ "") :
    trimmedNonEmpty (jsTrim s) = true := by
  simp [trimmedNonEmpty, h, jsTrim_idem]

/-- Joining trimmed non-empty strings with ", " yields a trimmed
non-empty string. -/
theorem joinJs_trimmedNonEmpty :
    ∀ names : List String, names ≠ [] → (∀ x ∈ names, trimmedNonEmpty x = true) →
      trimmedNonEmpty (joinJs ", " names) = true
  | [], h, _ => absurd rfl h
  | [s], _, hall => by
    rw [joinJs]
    exact hall s (by simp)
  | s :: s2 :: rest, _, hall => by
    have hs : trimmedNonEmpty s = true := hall s (by simp)
    have hs1 : s ≠ "" := by
      intro he
      simp [trimmedNonEmpty, he] at hs
    have hs2 : jsTrim s = s := by
      simp only [trimmedNonEmpty, Bool.and_eq_true, beq_iff_eq] at hs
      exact hs.2
    have hrec : trimmedNonEmpty (joinJs ", " (s2 :: rest)) = true :=
      joinJs_trimmedNonEmpty (s2 :: rest) (by simp) (fun x hx => hall x (by simp [hx]))
    have hr1 : joinJs ", " (s2 :: rest) ≠ "" := by
      intro he
      simp [trimmedNonEmpty, he] at hrec
    have hr2 : jsTrim (joinJs ", " (s2 :: rest)) = joinJs ", " (s2 :: rest) := by
      simp only [trimmedNonEmpty, Bool.and_eq_true, beq_iff_eq] at hrec
      exact hrec.2
    rw [joinJs]
    have hne : s ++ ", " ++ joinJs ", " (s2 :: rest) ≠ "" := by
      rw [Ne, string_eq_empty_iff]
      simp only [String.data_append]
      intro hnil
      rcases List.append_eq_nil.mp hnil with ⟨hnil1, _⟩
      rcases List.append_eq_nil.mp hnil1 with ⟨hs0, _⟩
      exact hs1 (string_eq_empty_iff.mpr hs0)
    have htrim : jsTrim (s ++ ", " ++ joinJs ", " (s2 :: rest)) =
        s ++ ", " ++ joinJs ", " (s2 :: rest) := by
      apply jsTrim_eq_self
      · intro c hc
        simp only [String.data_append, List.append_assoc, List.head?_append] at hc
        cases hsd : s.data with
        | nil => exact absurd (string_eq_empty_iff.mpr hsd) hs1
        | cons a t =>
          rw [hsd] at hc
          simp only [List.head?_cons, Option.or_some] at hc
          injection hc with hc
          subst hc
          apply jsTrim_head_not_ws (s := s)
          rw [hs2, hsd]
          rfl
      · intro c hc
        simp only [String.data_append, List.getLast?_append] at hc
        cases hjd : (joinJs ", " (s2 :: rest)).data.getLast? with
        | none =>
          exact absurd (string_eq_empty_iff.mpr (List.getLast?_eq_none_iff.mp hjd)) hr1
        | some a =>
          rw [hjd] at hc
          simp only [Option.or_some] at hc
          injection hc with hc
          subst hc
          apply jsTrim_getLast_not_ws (s := joinJs ", " (s2 :: rest))
          rw [hr2, hjd]
    simp [trimmedNonEmpty, hne, htrim]

/-- C5 (amended): `parseTrack` is total (never throws) on every raw track
value, and the `title` and `artist` fields are always null or trimmed
non-empty strings; `songUrl` and `albumImageUrl` are null or taken
verbatim from the payload, so they may be empty or untrimmed. -/
theorem c5_parseTrackShape (track : JVal) :
    nullOrTrimmedNonEmpty (parseTrack track).title = true ∧
    nullOrTrimmedNonEmpty (parseTrack track).artist = true := by
  unfold parseTrack
  by_cases ht : jsTruthy track
  · simp only [ht, Bool.not_true, Bool.false_eq_true, if_false]
    constructor
    · cases hn : jsField track "name" with
      | str s =>
        simp only
        by_cases he : jsTrim s ≠ ""
        · simp only [hn, if_pos he]
          exact trimmedNonEmpty_jsTrim he
        · simp [hn, he, nullOrTrimmedNonEmpty]
      | _ => simp [hn, nullOrTrimmedNonEmpty]
    · set names := (match jsField track "artists" with
        | JVal.arr xs =>
            xs.map fun a => match jsField a "name" with | JVal.str s => jsTrim s | _ => ""
        | _ => ([] : List String)).filter (fun s => s != "") with hnames
      by_cases hlen : names.length > 0
      · rw [if_pos hlen]
        apply joinJs_trimmedNonEmpty
        · intro hnil
          rw [hnil] at hlen
          simp at hlen
        · intro x hx
          rw [hnames] at hx
          have hmem := List.mem_filter.mp hx
          have hne : x ≠ "" := by
            have := hmem.2
            simpa using this
          cases hsrc : jsField track "artists" with
          | arr xs =>
            rw [hsrc] at hmem
            obtain ⟨a, _, hax⟩ := List.mem_map.mp hmem.1
            cases han : jsField a "name" with
            | str s =>
              rw [han] at hax
              have hax2 : jsTrim s = x := hax
              rw [← hax2]
              exact trimmedNonEmpty_jsTrim (by rw [hax2]; exact hne)
            | _ =>
              rw [han] at hax
              have hax2 : "" = x := hax
              exact absurd hax2.symm hne
          | _ =>
            rw [hsrc] at hmem
            simp at hmem
      · rw [if_neg hlen]
        rfl
  · simp [ht, nullOrTrimmedNonEmpty]

/-- C5 witness: the amended theorem at a track with whitespace-laden
fields. -/
theorem c5_parseTrackShape_witness :
    nullOrTrimmedNonEmpty
      (parseTrack (.obj [("name", .str "  Song  "),
        ("artists", .arr [.obj [("name", .str " A ")], .obj [("name", .str "B")]])])).title
      = true ∧
    nullOrTrimmedNonEmpty
      (parseTrack (.obj [("name", .str "  Song  "),
        ("artists", .arr [.obj [("name", .str " A ")], .obj [("name", .str "B")]])])).artist
      = true :=
  c5_parseTrackShape (.obj [("name", .str "  Song  "),
    ("artists", .arr [.obj [("name", .str " A ")], .obj [("name", .str "B")]])])

/-! ### Claim C3: homelab snapshot fallback -/

/-- C3 counterexample: when the live path succeeds but produces zero
runtime rows (systems present, both collection kinds absent, nothing
embedded), the returned snapshot has source beszel yet carries the
hardcoded mock rows. -/
theorem c3_fullFallback_counterexample :
    homelabGET ⟨.ok (some [.obj []]), [.ok none, .ok none], [.ok none, .ok none], "t"⟩ =
      ⟨.beszel, "t", ⟨1, 0, 0, 0⟩, ⟨34, 62, 48, 57⟩, mockRows⟩ ∧
    (homelabGET ⟨.ok (some [.obj []]), [.ok none, .ok none],
      [.ok none, .ok none], "t"⟩).source = .beszel ∧
    (homelabGET ⟨.ok (some [.obj []]), [.ok none, .ok none],
      [.ok none, .ok none], "t"⟩).rows = mockRows := by decide

/-- C3 (amended): any thrown failure in the live path yields the entire
static mock snapshot with source mock, with no partial state; a snapshot
with source beszel is exactly the successfully built one, whose rows are
the live rows when at least one was produced but are the hardcoded mock
rows when the live build produced zero rows. -/
theorem c3_fullFallback (env : HomelabEnv) :
    (∀ e, buildBeszelSnapshot env = .error e →
      homelabGET env = buildMockSnapshot env.now ∧ (homelabGET env).source = .mock) ∧
    (∀ s, buildBeszelSnapshot env = .ok s →
      homelabGET env = s ∧ s.source = .beszel ∧
      s.rows = (if (beszelRowsOf env).length > 0 then beszelRowsOf env else mockRows)) := by
  constructor
  · intro e he
    unfold homelabGET
    rw [he]
    exact ⟨rfl, rfl⟩
  · intro s hs
    have hget : homelabGET env = s := by
      unfold homelabGET
      rw [hs]
    refine ⟨hget, ?_⟩
    unfold buildBeszelSnapshot at hs
    cases hsys : env.systems with
    | error e =>
      rw [hsys] at hs
      cases hs
    | ok systemsR =>
      rw [hsys] at hs
      cases systemsR with
      | none =>
        cases hs
      | some items =>
        dsimp only at hs
        by_cases hlen : items.length = 0
        · rw [if_pos hlen] at hs
          cases hs
        · rw [if_neg hlen] at hs
          cases hm : buildMetrics items with
          | error e =>
            rw [hm] at hs
            cases hs
          | ok m =>
            rw [hm] at hs
            injection hs with hs
            subst hs
            refine ⟨rfl, ?_⟩
            unfold beszelRowsOf
            rw [hsys]

/-- C3 witness: the amended theorem applied to a failing systems fetch,
yielding the full mock snapshot. -/
theorem c3_fullFallback_witness :
    homelabGET ⟨.error "connection refused", [], [], "t"⟩ = buildMockSnapshot "t" ∧
    (homelabGET ⟨.error "connection refused", [], [], "t"⟩).source = .mock :=
  (c3_fullFallback ⟨.error "connection refused", [], [], "t"⟩).1 "connection refused" rfl
